import Mathlib

/-!
# Verification of the sRPC core (call capture, dispatch, batching, errors)

A shallow embedding of the sRPC framework's core runtime behavior, translated
from the TypeScript sources:

* `packages/core/src/shared/index.ts` — error codes, `StatusCodeMap`, `SRPCError`;
* `packages/core/src/server/api.ts` — `sRPC_API.getRoute` / `sRPC_API.call`;
* `packages/core/src/server/batch.ts` — `handleBatchRequest` (validating version);
* the fetch transport adapter (`srpcFetchApi`) and the standalone server
  (`packages/core/src/server/standalone.ts`);
* `packages/core/src/client/index.ts` — `createSRPCClient` response handling;
* `packages/core/src/client/httpBatchLink.ts` — the batching link.

JavaScript runtime values are modelled by the JSON-like type `JVal`; machine
behaviors that matter to the routed code — truthiness, `typeof`, the `in`
operator (including its prototype-chain walk and its `TypeError` on
primitives), string coercion — are modelled explicitly.  Exceptions are
modelled with `Except`; `async`/`await` sequencing collapses to ordinary
sequencing, which is faithful because each embedded operation awaits its
callees in program order.
-/

namespace Srpc

/-! ## Error model (shared/index.ts) -/

/-- The closed set of error codes (`ErrorCodes` union type in `shared/index.ts`). -/
inductive ErrorCode where
  | NOT_FOUND
  | FORBIDDEN
  | UNAUTHORIZED
  | INTERNAL_SERVER_ERROR
  | BAD_REQUEST
  | NOT_IMPLEMENTED
  | UNSUPPORTED_MEDIA_TYPE
  | GENERIC_ERROR
  deriving DecidableEq, Repr

/-- Wire spelling of each error code (the string literal of the union member). -/
def ErrorCode.toWire : ErrorCode → String
  | .NOT_FOUND => "NOT_FOUND"
  | .FORBIDDEN => "FORBIDDEN"
  | .UNAUTHORIZED => "UNAUTHORIZED"
  | .INTERNAL_SERVER_ERROR => "INTERNAL_SERVER_ERROR"
  | .BAD_REQUEST => "BAD_REQUEST"
  | .NOT_IMPLEMENTED => "NOT_IMPLEMENTED"
  | .UNSUPPORTED_MEDIA_TYPE => "UNSUPPORTED_MEDIA_TYPE"
  | .GENERIC_ERROR => "GENERIC_ERROR"

/-- `StatusCodeMap` from `shared/index.ts`: error code → HTTP status. -/
def StatusCodeMap : ErrorCode → Nat
  | .BAD_REQUEST => 400
  | .NOT_FOUND => 404
  | .FORBIDDEN => 403
  | .UNAUTHORIZED => 401
  | .INTERNAL_SERVER_ERROR => 500
  | .NOT_IMPLEMENTED => 501
  | .UNSUPPORTED_MEDIA_TYPE => 415
  | .GENERIC_ERROR => 500

/-! ## JavaScript value model -/

/-- JSON-like JavaScript runtime values (what the pluggable serializer
decodes to / encodes from).  `num` is modelled over `Int`: no claim in scope
involves fractional or non-finite numbers. -/
inductive JVal where
  | null
  | bool (b : Bool)
  | num (n : Int)
  | str (s : String)
  | arr (elems : List JVal)
  | obj (fields : List (String × JVal))

/-- JS `typeof v` for `JVal` values (note `typeof null === "object"`). -/
def jsTypeof : JVal → String
  | .null => "object"
  | .bool _ => "boolean"
  | .num _ => "number"
  | .str _ => "string"
  | .arr _ => "object"
  | .obj _ => "object"

/-- `typeof` applied to a possibly-absent member (`undefined` when absent). -/
def jsTypeofOpt : Option JVal → String
  | none => "undefined"
  | some v => jsTypeof v

/-- JS falsiness of a `JVal` (`null`, `false`, `0`, `""` are falsy). -/
def jsFalsy : JVal → Bool
  | .null => true
  | .bool b => !b
  | .num n => n == 0
  | .str s => s == ""
  | .arr _ => false
  | .obj _ => false

/-- Own-property member access `v[k]` on a JSON value.  Decoded JSON objects
carry only own data properties; the inherited `Object.prototype` members are
function-valued and none of the keys the embedded code reads this way
(`"requests"`, `"id"`, `"path"`, `"args"`, `"message"`, `"code"`,
`"__BRAND__"`, `"data"`, `"ok"`) exists on `Object.prototype`, so own-only
lookup is exact here.  `none` models `undefined`. -/
def jsGetOwn (v : JVal) (k : String) : Option JVal :=
  match v with
  | .obj fields => fields.lookup k
  | _ => none

/-- Names of the standard function-valued `Object.prototype` properties, in
scope for the prototype-chain fallback of unguarded property access and of
the `in` operator on plain objects. -/
def objectProtoKeys : List String :=
  ["constructor", "hasOwnProperty", "isPrototypeOf", "propertyIsEnumerable",
   "toLocaleString", "toString", "valueOf"]

/-- A representative set of `Array.prototype` method names (inherited by
every array, on top of `Object.prototype`). -/
def arrayProtoKeys : List String :=
  ["at", "concat", "entries", "every", "fill", "filter", "find", "findIndex",
   "flat", "flatMap", "forEach", "indexOf", "join", "keys", "lastIndexOf",
   "map", "pop", "push", "reduce", "reverse", "shift", "slice", "some",
   "sort", "splice", "unshift", "values"] ++ objectProtoKeys

/-- The JS `in` operator on an object or array: own properties plus the
prototype chain (array index keys and `"length"` for arrays).  Primitive
left-operand handling (a thrown `TypeError`) is modelled separately by
`jsInOp`; this function is only applied behind `typeof v === "object"`
guards in the embedded code. -/
def jsHasProp (v : JVal) (k : String) : Bool :=
  match v with
  | .obj fields => (fields.lookup k).isSome || objectProtoKeys.contains k
  | .arr elems =>
      (List.range elems.length).any (fun i => toString i == k)
        || k == "length" || arrayProtoKeys.contains k
  | _ => false

/-- The JS `in` operator with its full semantics: `k in v` throws a
`TypeError` when `v` is a primitive (`null`, boolean, number or string). -/
def jsInOp (v : JVal) (k : String) : Except String Bool :=
  match v with
  | .obj _ => .ok (jsHasProp v k)
  | .arr _ => .ok (jsHasProp v k)
  | _ => .error "Cannot use in operator to search in a primitive value"

/-- JS string coercion `String(v)` / `Array.prototype.toString` (which is
`join(",")`, mapping `null` elements to the empty string). -/
def jsToString : JVal → String
  | .null => "null"
  | .bool b => cond b "true" "false"
  | .num n => toString n
  | .str s => s
  | .arr elems => String.intercalate "," (jsToStringJoin elems)
  | .obj _ => "[object Object]"
where
  /-- Element coercion used by `Array.prototype.join`. -/
  jsToStringJoin : List JVal → List String
  | [] => []
  | .null :: rest => "" :: jsToStringJoin rest
  | v :: rest => jsToString v :: jsToStringJoin rest

/-- A thrown JavaScript value, as discriminated by the embedded `catch`
blocks: an `SRPCError` instance (`error instanceof SRPCError`), some other
`Error` instance, or an arbitrary non-`Error` value. -/
inductive Thrown where
  | srpcError (message : String) (code : ErrorCode)
  | jsError (message : String)
  | rawValue (v : JVal)

/-- The `error instanceof Error ? error.message : String(error)`
normalization used by every embedded `catch` block for non-`SRPCError`
failures. -/
def Thrown.fallbackMessage : Thrown → String
  | .srpcError m _ => m
  | .jsError m => m
  | .rawValue v => jsToString v

/-! ## Router and dispatcher (server/api.ts) -/

/-- A runtime value reachable inside a router tree: a procedure (a JS
function, modelled as a Lean function from the full JS argument list to an
outcome), an `SRPC` router instance carrying its `__routes` mapping, or a
function inherited from `Object.prototype` (reachable because the source
uses unguarded property access on plain objects). -/
inductive RVal where
  | proc (f : List JVal → Except Thrown JVal)
  | router (routes : List (String × RVal))
  | protoFn (name : String)

/-- A router's `__routes` mapping: a JS plain object from names to
procedures or nested routers.  Keys are unique (a JS object literal cannot
hold two own properties with the same name). -/
abbrev RoutesMap := List (String × RVal)

/-- `pathString.includes(".")`, over the string's characters. -/
def includesDot (s : String) : Bool :=
  s.data.contains '.'

/-- `pathString.split(".")`: splitting on the single-character separator
(`"".split(".")` is `[""]`, and empty segments between consecutive dots are
kept, exactly as in JS). -/
def splitOnDot (s : String) : List String :=
  (s.data.splitOn '.').map (fun cs => String.mk cs)

/-- Unguarded JS property access `routesObject[key]` on a `__routes` plain
object: own properties first, then the `Object.prototype` chain (whose
relevant members are all functions). -/
def jsRouteLookup (m : RoutesMap) (k : String) : Option RVal :=
  match m.lookup k with
  | some v => some v
  | none => if objectProtoKeys.contains k then some (.protoFn k) else none

/-- The `current` cursor of `getRoute`'s segment walk: either the root
`__routes` plain object, or a value found inside the tree.  (`Option`
wrapping models `null`/`undefined`.) -/
inductive Cur where
  | routesObj (m : RoutesMap)
  | val (v : RVal)

/-- One iteration of the `for (const key of pathParts)` loop of
`sRPC_API.getRoute`:

* `current instanceof SRPC` → `current = current.__routes[key]`
  (unguarded access, prototype chain included);
* `current && typeof current === "object" && key in current` →
  `current = current[key]` (`in` walks the prototype chain, so the guard
  and the access agree);
* otherwise (`null`, `undefined`, or a function) → `current = null`. -/
def walkStep (cur : Option Cur) (key : String) : Option Cur :=
  match cur with
  | some (.val (.router m)) => (jsRouteLookup m key).map .val
  | some (.routesObj m) =>
      if (m.lookup key).isSome || objectProtoKeys.contains key then
        (jsRouteLookup m key).map .val
      else
        none
  | _ => none

/-- The whole segment walk, strictly left to right over the split path. -/
def walkPath (m : RoutesMap) (parts : List String) : Option Cur :=
  parts.foldl walkStep (some (.routesObj m))

namespace sRPC_API

/-- `sRPC_API.getRoute` from `server/api.ts`:

1. raw top-level access `this.#router.__routes[path]`, returned when truthy
   (every procedure, router or inherited function is truthy);
2. otherwise, when the path contains `"."`, split on `"."` and walk;
3. otherwise the same raw access again (necessarily absent here). -/
def getRoute (m : RoutesMap) (path : String) : Option Cur :=
  match jsRouteLookup m path with
  | some v => some (.val v)
  | none =>
    if includesDot path then
      walkPath m (splitOnDot path)
    else
      (jsRouteLookup m path).map .val

/-- `sRPC_API.call` from `server/api.ts`: resolve the path; when the
resolved value is not a function (`typeof route !== "function"`), throw
`new SRPCError(\x60Route ${path} not found\x60, "NOT_FOUND")`; otherwise invoke
it as `route(context, ...deserializedArgs)` — the context prepended to the
argument list.  `protoImpl` interprets the host-defined `Object.prototype`
functions when one of them is what resolution produced. -/
def call (protoImpl : String → List JVal → Except Thrown JVal)
    (m : RoutesMap) (path : String) (context : JVal) (args : List JVal) :
    Except Thrown JVal :=
  match getRoute m path with
  | some (.val (.proc f)) => f (context :: args)
  | some (.val (.protoFn name)) => protoImpl name (context :: args)
  | _ => .error (.srpcError s!"Route {path} not found" .NOT_FOUND)

end sRPC_API

/-! ## Server-side batch endpoint (server/batch.ts, validating version) -/

/-- A validated `BatchRequestItem` (`{id: number, path: string, args: unknown[]}`). -/
structure BatchRequestItem where
  id : Int
  path : String
  args : List JVal

/-- The `error` payload of a failed batch response item: exactly the fields
the source builds (`__BRAND__`, `message`, `code`) — no stack trace field
exists in this payload. -/
structure BatchErrorPayload where
  __BRAND__ : String
  message : String
  code : ErrorCode

/-- One element of the batch response envelope (`{id, ok, data?, error?}`). -/
structure BatchResponseItem where
  id : Int
  ok : Bool
  data : Option JVal
  error : Option BatchErrorPayload

/-- The envelope-shape validation of `handleBatchRequest` applied to one
item of `requests`, in source order:

* `!req || typeof req !== "object"` → `"Invalid batch request item"`;
* `typeof req.id !== "number" || typeof req.path !== "string"` (the member
  patterns below are exactly those `typeof` tests) →
  `"Batch item must have id and path"`;
* `!Array.isArray(req.args)` → `"Batch item args must be an array"`. -/
def validateItem (v : JVal) : Except Thrown BatchRequestItem :=
  if jsFalsy v || !(jsTypeof v == "object") then
    .error (.srpcError "Invalid batch request item" .BAD_REQUEST)
  else
    match jsGetOwn v "id", jsGetOwn v "path" with
    | some (.num i), some (.str p) =>
      (match jsGetOwn v "args" with
       | some (.arr args) => .ok ⟨i, p, args⟩
       | _ => .error (.srpcError "Batch item args must be an array" .BAD_REQUEST))
    | _, _ => .error (.srpcError "Batch item must have id and path" .BAD_REQUEST)

/-- The `for (const req of requests)` validation loop: first offending item
aborts with its error. -/
def validateItems : List JVal → Except Thrown (List BatchRequestItem)
  | [] => .ok []
  | v :: rest =>
    match validateItem v with
    | .error e => .error e
    | .ok item =>
      match validateItems rest with
      | .error e => .error e
      | .ok items => .ok (item :: items)

/-- The envelope-shape validation block of `handleBatchRequest`
(server/batch.ts), over the already-deserialized body `parsed`:

* `!parsed || typeof parsed !== "object" || !("requests" in parsed)` →
  `"Invalid batch request format"`;
* `!Array.isArray(requests)` → `"Batch requests must be an array"`;
* `requests.length === 0` → `"Batch cannot be empty"`;
* `requests.length > maxBatchSize` → the size message;
* then the per-item loop. -/
def validateRequestsList (requests : List JVal) (maxBatchSize : Nat) :
    Except Thrown (List BatchRequestItem) :=
  if requests.length == 0 then
    .error (.srpcError "Batch cannot be empty" .BAD_REQUEST)
  else if maxBatchSize < requests.length then
    .error (.srpcError
      s!"Batch size {requests.length} exceeds maximum {maxBatchSize}" .BAD_REQUEST)
  else
    validateItems requests

def validateBatch (parsed : JVal) (maxBatchSize : Nat) :
    Except Thrown (List BatchRequestItem) :=
  if jsFalsy parsed || !(jsTypeof parsed == "object") || !(jsHasProp parsed "requests") then
    .error (.srpcError "Invalid batch request format" .BAD_REQUEST)
  else
    match jsGetOwn parsed "requests" with
    | some (.arr requests) => validateRequestsList requests maxBatchSize
    | _ => .error (.srpcError "Batch requests must be an array" .BAD_REQUEST)

/-- The `result.status === "rejected"` arm of the response builder: an
`SRPCError` keeps its message and code; any other failure is normalized to
`INTERNAL_SERVER_ERROR` with `error instanceof Error ? error.message :
String(error)`.  Only `__BRAND__`, `message` and `code` are emitted. -/
def thrownToBatchError : Thrown → BatchErrorPayload
  | .srpcError message code => ⟨"SRPCError", message, code⟩
  | e => ⟨"SRPCError", e.fallbackMessage, .INTERNAL_SERVER_ERROR⟩

/-- The response item for one settled call result (`results.map` body). -/
def settledToResponseItem (id : Int) : Except Thrown JVal → BatchResponseItem
  | .ok v => ⟨id, true, some v, none⟩
  | .error e => ⟨id, false, none, some (thrownToBatchError e)⟩

/-- The execution phase of `handleBatchRequest`: every validated item's
`api.call` settles independently (`Promise.allSettled`), and the response
envelope pairs `requests[i].id` with `results[i]`. -/
def executeBatch (protoImpl : String → List JVal → Except Thrown JVal)
    (m : RoutesMap) (context : JVal) (items : List BatchRequestItem) :
    List BatchResponseItem :=
  let results := items.map (fun req => sRPC_API.call protoImpl m req.path context req.args)
  (items.zip results).map (fun p => settledToResponseItem p.1.id p.2)

/-- `handleBatchRequest` (server/batch.ts): validate the decoded envelope,
then execute every item and aggregate by independent settlement. -/
def handleBatchRequest (protoImpl : String → List JVal → Except Thrown JVal)
    (m : RoutesMap) (parsed : JVal) (context : JVal) (maxBatchSize : Nat) :
    Except Thrown (List BatchResponseItem) :=
  match validateBatch parsed maxBatchSize with
  | .error e => .error e
  | .ok items => .ok (executeBatch protoImpl m context items)

/-! ## Transport adapters (server/fetch.ts and server/standalone.ts)

The pluggable serializer is an external collaborator (spec §1), so requests
carry their already-deserialized body and responses carry the structured
value handed to `serializer.serialize`, in its JSON-observable form for the
two error shapes built from `SRPCError` values (see
`srpcErrorSpreadBody` / `srpcErrorInstanceJsonBody`). -/

/-- An abstract inbound request: HTTP method, URL pathname, and the
deserialized body. -/
structure FetchRequest where
  method : String
  pathname : String
  body : JVal

/-- An abstract outbound response: status, optional `statusText`, the
structured value handed to `serializer.serialize` (`none` for a bodyless
`Response(null, ...)`), and the `Content-Type` header when one is set. -/
structure FetchResponse where
  status : Nat
  statusText : Option String
  body : Option JVal
  contentType : Option String

/-- The serialized form of `{...error, stack: null, message: error.message}`
for an `SRPCError` — the body of the `error instanceof SRPCError` response
branches.  Spreading the instance copies its own enumerable properties in
insertion order (`code`, then the `__BRAND__` class field, then `name`
assigned in the constructor; `Error`-installed `message` and `stack` are
non-enumerable own properties and are not spread), after which the literal
adds `stack: null` and the explicit `message`. -/
def srpcErrorSpreadBody (message : String) (code : ErrorCode) : JVal :=
  .obj [("code", .str code.toWire), ("__BRAND__", .str "SRPCError"),
        ("name", .str "SRPCError"), ("stack", .null), ("message", .str message)]

/-- The JSON-observable form of serializing an `SRPCError` *instance*
directly (`serializer.serialize(new SRPCError(message,
"INTERNAL_SERVER_ERROR"))`, the non-typed-error response branches):
`JSON.stringify` emits own enumerable properties only, and the
`Error`-installed `message` and `stack` are non-enumerable, so the encoded
object carries just `code`, `__BRAND__` and `name` — the message argument
does not reach the wire. -/
def srpcErrorInstanceJsonBody (_message : String) (code : ErrorCode) : JVal :=
  .obj [("code", .str code.toWire), ("__BRAND__", .str "SRPCError"),
        ("name", .str "SRPCError")]

/-- Serialized form of one batch response item: the literals
`{id, ok: true, data}` and `{id, ok: false, error: {__BRAND__, message,
code}}`. -/
def batchResponseItemToJVal (r : BatchResponseItem) : JVal :=
  .obj ([("id", .num r.id), ("ok", .bool r.ok)]
    ++ (match r.data with
        | some d => [("data", d)]
        | none => [])
    ++ (match r.error with
        | some e => [("error", .obj [("__BRAND__", .str e.__BRAND__),
                                     ("message", .str e.message),
                                     ("code", .str e.code.toWire)])]
        | none => []))

/-- Serialized form of the batch response envelope `{responses: [...]}`. -/
def batchEnvelopeToJVal (items : List BatchResponseItem) : JVal :=
  .obj [("responses", .arr (items.map batchResponseItemToJVal))]

/-- When `pat` is a leading run of `s`, the remainder after it. -/
def stripLeading : List Char → List Char → Option (List Char)
  | s, [] => some s
  | [], _ :: _ => none
  | c :: s, p :: ps => if c == p then stripLeading s ps else none

/-- Remove the first (leftmost) occurrence of `pat`, if any. -/
def removeFirstOccur (pat : List Char) : List Char → List Char
  | [] => []
  | c :: rest =>
    match stripLeading (c :: rest) pat with
    | some remainder => remainder
    | none => c :: removeFirstOccur pat rest

/-- JS `String.prototype.replace` with a plain-string pattern replaces only
the first occurrence; the adapter uses it with the empty replacement
(`pathname.replace(\x60${endpoint}/\x60, "")`). -/
def replaceFirstWithEmpty (s pat : String) : String :=
  String.mk (removeFirstOccur pat.data s.data)

/-- Call-spread `f(context, ...deserializedArgs)`: arrays spread to their
elements, strings to their characters, and any other value raises a
`TypeError` (non-iterable). -/
def jsSpreadArgs : JVal → Option (List JVal)
  | .arr elems => some elems
  | .str s => some (s.data.map (fun c => .str (String.singleton c)))
  | _ => none

/-- The shared `catch` translation of the adapter: an `SRPCError` yields
`StatusCodeMap[error.code]` with `statusText: error.message` and the
spread-with-fixups body; any other failure yields status `500` and the body
of serializing `new SRPCError(message, "INTERNAL_SERVER_ERROR")` directly. -/
def adapterCatchResponse : Thrown → FetchResponse
  | .srpcError message code =>
      ⟨StatusCodeMap code, some message, some (srpcErrorSpreadBody message code),
       some "application/json"⟩
  | e =>
      ⟨500, none, some (srpcErrorInstanceJsonBody e.fallbackMessage .INTERNAL_SERVER_ERROR),
       some "application/json"⟩

/-- The `fetch` handler returned by `srpcFetchApi` (server/fetch.ts).  The
handler performs no HTTP-method check.  `pathname === endpoint +
batchEndpoint` routes to the batch endpoint (maximum batch size left at its
default, 100); every other path is stripped of the first occurrence of
`endpoint + "/"` and dispatched as a single call.  A non-iterable
single-call body makes the awaited `route(context, ...args)` spread raise a
`TypeError` inside the `try`, which the shared `catch` normalizes. -/
def srpcFetchApiFetch (protoImpl : String → List JVal → Except Thrown JVal)
    (m : RoutesMap) (endpoint batchEndpoint : String)
    (createContext : FetchRequest → JVal) (req : FetchRequest) : FetchResponse :=
  if req.pathname == endpoint ++ batchEndpoint then
    match handleBatchRequest protoImpl m req.body (createContext req) 100 with
    | .ok responses =>
        ⟨200, none, some (batchEnvelopeToJVal responses), some "application/json"⟩
    | .error e => adapterCatchResponse e
  else
    let path := replaceFirstWithEmpty req.pathname (endpoint ++ "/")
    match jsSpreadArgs req.body with
    | some args =>
      (match sRPC_API.call protoImpl m path (createContext req) args with
       | .ok data => ⟨200, none, some data, some "application/json"⟩
       | .error e => adapterCatchResponse e)
    | none =>
      adapterCatchResponse (.jsError "deserializedArgs is not iterable")

/-- The request handler of `createSrpcServer` (server/standalone.ts): a
non-POST method is answered with `new Response(null, { status: 405 })`
before `createContext` runs and before any dispatch; a POST request is
delegated to the `srpcFetchApi` handler. -/
def createSrpcServerHandler (protoImpl : String → List JVal → Except Thrown JVal)
    (m : RoutesMap) (endpoint batchEndpoint : String)
    (createContext : FetchRequest → JVal) (req : FetchRequest) : FetchResponse :=
  if !(req.method == "POST") then
    ⟨405, none, none, none⟩
  else
    srpcFetchApiFetch protoImpl m endpoint batchEndpoint createContext req

/-! ## Single-call client (client/index.ts) -/

/-- How a `createSRPCClient` call settles once the response text has been
deserialized into `data`:

* `success` — the promise resolves with `data`;
* `srpcThrow` — the promise rejects with a reconstructed
  `new SRPCError(message, code)`; the `code` field is carried verbatim
  (the `as ErrorCodes` cast in the source is unchecked), `none` modelling
  `undefined`;
* `hostError` — the promise rejects with a host exception that is not an
  `SRPCError`. -/
inductive ClientResult where
  | success (data : JVal)
  | srpcThrow (message : String) (code : Option JVal)
  | hostError (message : String)

/-- `new Error(message).message`: `undefined` leaves the inherited empty
string, anything else is string-coerced. -/
def errorCtorMessage : Option JVal → String
  | none => ""
  | some v => jsToString v

/-- The response handling of `createSRPCClient` (client/index.ts), after
`data = transformer.deserialize(responseText)`:

* `response.ok` → resolve with `data`;
* otherwise probe `"__BRAND__" in data` — a `TypeError` on a primitive
  body propagates as-is — and on a recognized tag throw
  `new SRPCError(data.message, data.code)`; otherwise throw
  `new SRPCError(response.statusText || "Unknown error", "GENERIC_ERROR")`. -/
def createSRPCClientHandle (ok : Bool) (statusText : String) (data : JVal) :
    ClientResult :=
  if ok then
    .success data
  else
    match jsInOp data "__BRAND__" with
    | .error msg => .hostError msg
    | .ok hasBrand =>
      if hasBrand &&
          (match jsGetOwn data "__BRAND__" with
           | some (.str s) => s == "SRPCError"
           | _ => false) then
        .srpcThrow (errorCtorMessage (jsGetOwn data "message")) (jsGetOwn data "code")
      else
        .srpcThrow (if statusText == "" then "Unknown error" else statusText)
          (some (.str "GENERIC_ERROR"))

/-! ## Batching link (client/httpBatchLink.ts) -/

/-- A buffered pending request of the batching link (`resolve`/`reject`
are represented by the settlement outcome computed in `flushSettle`). -/
structure PendingRequest where
  id : Int
  path : String
  args : List JVal

/-- One decoded item of the batch response envelope, as the link reads it
(`{id, ok, data?, error?}` with `error.code` a plain string on the wire). -/
structure WireResponseItem where
  id : Int
  ok : Bool
  data : Option JVal
  error : Option BatchErrorPayload

/-- How one transmission of a flushed batch ends, as discriminated by the
link: a response with `!response.ok`, an exception thrown anywhere inside
the `try` (fetch failure, body read, deserialization), or a decoded
response envelope. -/
inductive TransportOutcome where
  | httpError (statusText : String)
  | thrown (e : Thrown)
  | decoded (responses : List WireResponseItem)

/-- How one pending request settles. -/
inductive Settle where
  | resolved (data : Option JVal)
  | rejected (message : String) (code : ErrorCode)

/-- `new Map(responses.map((r) => [r.id, r])).get(id)`: with duplicate ids
the later entry wins, hence the reversed search. -/
def responseMapGet (responses : List WireResponseItem) (id : Int) :
    Option WireResponseItem :=
  responses.reverse.find? (fun r => r.id == id)

/-- The per-request settlement in the decoded-envelope case of `flush`:
absent id → `"Missing response for request"` / `GENERIC_ERROR`; present and
`ok` → resolve with `data`; present, not `ok`, with `error` → the carried
message and code; present, not `ok`, without `error` → `"Unknown response
format"` / `GENERIC_ERROR`. -/
def settleFromResponses (responses : List WireResponseItem)
    (req : PendingRequest) : Settle :=
  match responseMapGet responses req.id with
  | none => .rejected "Missing response for request" .GENERIC_ERROR
  | some r =>
    if r.ok then
      .resolved r.data
    else
      match r.error with
      | some e => .rejected e.message e.code
      | none => .rejected "Unknown response format" .GENERIC_ERROR

/-- The fan-out of `flush` over a snapshot `batch`, settling every buffered
request exactly once:

* `!response.ok` → every request rejects with one shared
  `new SRPCError(response.statusText || "Batch request failed",
  "GENERIC_ERROR")`;
* a thrown failure → every request rejects with one shared error: the
  `SRPCError` itself when the failure is one, otherwise
  `new SRPCError(message, "INTERNAL_SERVER_ERROR")`;
* a decoded envelope → id-lookup settlement per request. -/
def flushSettle (batch : List PendingRequest) (outcome : TransportOutcome) :
    List Settle :=
  match outcome with
  | .httpError statusText =>
      batch.map (fun _ =>
        .rejected (if statusText == "" then "Batch request failed" else statusText)
          .GENERIC_ERROR)
  | .thrown (.srpcError message code) =>
      batch.map (fun _ => .rejected message code)
  | .thrown e =>
      batch.map (fun _ => .rejected e.fallbackMessage .INTERNAL_SERVER_ERROR)
  | .decoded responses =>
      batch.map (settleFromResponses responses)

/-- The per-link mutable state of `httpBatchLink`: the pending buffer, the
armed flush timer (`some d` records the `setTimeout` delay `d`), and the
monotonically increasing request-id counter. -/
structure LinkState where
  pendingRequests : List PendingRequest
  timer : Option Nat
  requestIdCounter : Int

/-- The state a freshly constructed link starts in. -/
def initialLinkState : LinkState := ⟨[], none, 0⟩

/-- `flush()`: cancel any timer, snapshot and clear the buffer, and — when
the snapshot is non-empty — issue it as the single transmitted batch. -/
def flushTransition (s : LinkState) : LinkState × Option (List PendingRequest) :=
  (⟨[], none, s.requestIdCounter⟩,
   if s.pendingRequests.isEmpty then none else some s.pendingRequests)

/-- Capturing one call (the body of the returned link function): assign
`++requestIdCounter`, push `{id, path: path.join("."), args}`, then either
flush immediately (`pendingRequests.length >= maxBatchSize`) or arm the
timer if none is armed (`setTimeout(flush, batchWindowMs)`). -/
def captureTransition (maxBatchSize batchWindowMs : Nat) (s : LinkState)
    (path : List String) (args : List JVal) :
    LinkState × Option (List PendingRequest) :=
  if maxBatchSize ≤ (s.pendingRequests
      ++ [(⟨s.requestIdCounter + 1, String.intercalate "." path, args⟩ : PendingRequest)]).length then
    flushTransition ⟨s.pendingRequests
      ++ [(⟨s.requestIdCounter + 1, String.intercalate "." path, args⟩ : PendingRequest)],
      s.timer, s.requestIdCounter + 1⟩
  else if s.timer.isNone then
    (⟨s.pendingRequests
        ++ [(⟨s.requestIdCounter + 1, String.intercalate "." path, args⟩ : PendingRequest)],
      some batchWindowMs, s.requestIdCounter + 1⟩, none)
  else
    (⟨s.pendingRequests
        ++ [(⟨s.requestIdCounter + 1, String.intercalate "." path, args⟩ : PendingRequest)],
      s.timer, s.requestIdCounter + 1⟩, none)

/-- The two events the link reacts to: a captured call, and the armed
timer firing (whose callback is `flush`). -/
inductive LinkEvent where
  | capture (path : List String) (args : List JVal)
  | timerFire

/-- One step of the link state machine. -/
def linkStep (maxBatchSize batchWindowMs : Nat) (s : LinkState) :
    LinkEvent → LinkState × Option (List PendingRequest)
  | .capture path args => captureTransition maxBatchSize batchWindowMs s path args
  | .timerFire => flushTransition s

/-- A run of the link over an event sequence, accumulating every
transmitted batch in order. -/
def linkRun (maxBatchSize batchWindowMs : Nat) (s : LinkState) :
    List LinkEvent → LinkState × List (List PendingRequest)
  | [] => (s, [])
  | e :: rest =>
    ((linkRun maxBatchSize batchWindowMs
        (linkStep maxBatchSize batchWindowMs s e).1 rest).1,
     (match (linkStep maxBatchSize batchWindowMs s e).2 with
      | some b => [b]
      | none => []) ++
       (linkRun maxBatchSize batchWindowMs
         (linkStep maxBatchSize batchWindowMs s e).1 rest).2)

/-- Default `batchWindowMs` of `httpBatchLink`. -/
def defaultBatchWindowMs : Nat := 50

/-- Default `maxBatchSize` of `httpBatchLink`. -/
def defaultMaxBatchSize : Nat := 10

/-! ## Call interceptor (`createRecursiveProxy`)

The implementation file of `createRecursiveProxy` is not among the sources
(only its re-exports in `shared/index.ts`, its callers in
`client/index.ts`, and its test file `shared/proxy.spec.ts` are), so the
definitions below are modelled from the spec (§4.1) and from the shapes the
test file asserts. -/

/-- Modelled from the spec: the `{path, args}` record the Call Interceptor
hands to its handler on invocation (`createRecursiveProxy`'s callback
argument; implementation file absent from the sources). -/
structure CallRecord where
  path : List String
  args : List JVal

/-- Modelled from the spec: accessing property `name` on a synthetic value
remembering `path` yields a synthetic value remembering `path ++ [name]`
(`createRecursiveProxy`; implementation file absent from the sources). -/
def proxyAccess (path : List String) (name : String) : List String :=
  path ++ [name]

/-- Modelled from the spec: the synthetic value reached from the root proxy
by the chain of property accesses `names` remembers exactly `names`
(`createRecursiveProxy`; implementation file absent from the sources). -/
def proxyChain (names : List String) : List String :=
  names.foldl proxyAccess []

/-- Modelled from the spec: invoking a synthetic value as a function calls
the handler once with the accumulated path and the call arguments and
returns the handler's result (`createRecursiveProxy`; implementation file
absent from the sources). -/
def proxyInvoke {R : Type} (handler : CallRecord → R) (names : List String)
    (args : List JVal) : R :=
  handler ⟨proxyChain names, args⟩

/-- Modelled from the spec: converting a synthetic value to a display
string yields the dot-joined path (`createRecursiveProxy`'s `toString`
interop; implementation file absent from the sources). -/
def proxyToString (path : List String) : String :=
  String.intercalate "." path

/-- Modelled from the spec and `proxy.spec.ts`: converting a synthetic
value to its serializable form yields a small tagged object containing the
path (`createRecursiveProxy`'s `toJSON` interop; implementation file absent
from the sources). -/
def proxyToJSON (path : List String) : JVal :=
  .obj [("__type", .str "SRPC"), ("path", .arr (path.map .str)),
        ("pathString", .str (String.intercalate "." path))]

/-- Modelled from the spec: probing the synthetic value for the `"then"`
awaitable marker yields `undefined` (`createRecursiveProxy`; implementation
file absent from the sources). -/
def proxyThenProbe (_path : List String) : Option JVal :=
  none

/-! ## A concrete router (the shape of `test/test-router.ts`), used to
instantiate the universally quantified theorems at concrete inputs -/

/-- `sayHello: async (_, name) => "Hello " + name` (with JS string coercion
of a non-string argument). -/
def sayHelloProc : List JVal → Except Thrown JVal
  | _ctx :: name :: _ => .ok (.str ("Hello " ++ jsToString name))
  | _ => .ok (.str "Hello undefined")

/-- `failingProcedure: async () => { throw new SRPCError("This always
fails", "BAD_REQUEST") }`. -/
def failingProcedureProc : List JVal → Except Thrown JVal
  | _ => .error (.srpcError "This always fails" .BAD_REQUEST)

/-- A procedure that throws a plain `Error("boom")` — not an `SRPCError`. -/
def explodeProc : List JVal → Except Thrown JVal
  | _ => .error (.jsError "boom")

/-- `createUser: async (_, id) => ({...user, id})`. -/
def createUserProc : List JVal → Except Thrown JVal
  | _ctx :: id :: _ =>
      .ok (.obj [("id", id), ("name", .str "John Doe"), ("email", .str "john@doe.com")])
  | _ => .ok .null

/-- `getUser: async (_, id) => ({...user, id})`. -/
def getUserProc : List JVal → Except Thrown JVal
  | _ctx :: id :: _ =>
      .ok (.obj [("id", id), ("name", .str "John Doe"), ("email", .str "john@doe.com")])
  | _ => .ok .null

/-- The nested `admin` router. -/
def adminRoutes : RoutesMap := [("createUser", .proc createUserProc)]

/-- The nested `users` router. -/
def usersRoutes : RoutesMap :=
  [("getUser", .proc getUserProc), ("admin", .router adminRoutes)]

/-- The demo application router tree. -/
def demoRoutes : RoutesMap :=
  [("sayHello", .proc sayHelloProc),
   ("failingProcedure", .proc failingProcedureProc),
   ("explode", .proc explodeProc),
   ("users", .router usersRoutes)]

/-- A trivial interpretation of the inherited `Object.prototype` functions,
used to instantiate theorems that quantify over the host behavior. -/
def demoProtoImpl : String → List JVal → Except Thrown JVal :=
  fun name _args => .ok (.str s!"host function {name}")

/-- An item of `requests` that is an object with a numeric `id`, a string
`path` and a list `args` (the shape the claim requires of every item). -/
def itemWellFormed (v : JVal) : Prop :=
  jsFalsy v = false ∧ jsTypeof v = "object"
  ∧ (∃ i, jsGetOwn v "id" = some (.num i))
  ∧ (∃ p, jsGetOwn v "path" = some (.str p))
  ∧ (∃ xs, jsGetOwn v "args" = some (.arr xs))

/-- A decoded batch envelope in one of the rejected shapes: no object with
a `requests` member, `requests` not a list, an empty list, a list longer
than the configured maximum, or some item not well-formed. -/
def envelopeBad (parsed : JVal) (maxBatchSize : Nat) : Prop :=
  (¬ (jsFalsy parsed = false ∧ jsTypeof parsed = "object"
        ∧ jsHasProp parsed "requests" = true))
  ∨ (∀ xs, jsGetOwn parsed "requests" ≠ some (.arr xs))
  ∨ (jsGetOwn parsed "requests" = some (.arr []))
  ∨ (∃ xs, jsGetOwn parsed "requests" = some (.arr xs) ∧ maxBatchSize < xs.length)
  ∨ (∃ xs v, jsGetOwn parsed "requests" = some (.arr xs) ∧ v ∈ xs ∧ ¬ itemWellFormed v)

/-- The concrete two-item batch of the repository's own partial-failure
test: one succeeding call, one typed failure. -/
def demoBatchItems : List BatchRequestItem :=
  [⟨1, "sayHello", [.str "Test"]⟩, ⟨2, "failingProcedure", []⟩]

/-! ## Shared lemmas -/

/-- No inherited `Object.prototype` name contains a dot. -/
lemma objectProtoKeys_no_dot : ∀ k ∈ objectProtoKeys, includesDot k = false := by
  decide

/-- A raw `__routes` access at a dotted path can only hit an own key. -/
lemma jsRouteLookup_eq_lookup_of_dot (m : RoutesMap) (p : String)
    (hdot : includesDot p = true) : jsRouteLookup m p = m.lookup p := by
  unfold jsRouteLookup
  cases hlk : m.lookup p with
  | some v => rfl
  | none =>
    have hp : p ∉ objectProtoKeys := by
      intro hmem
      have := objectProtoKeys_no_dot p hmem
      rw [hdot] at this
      exact Bool.true_eq_false.mp this
    simp [hp]

/-- Once the segment walk has reached `null`, every further segment keeps
it `null`: resolution aborts at the first missing segment. -/
lemma walkStep_none_absorb (parts : List String) :
    parts.foldl walkStep none = none := by
  induction parts with
  | nil => rfl
  | cons k rest ih => simpa [walkStep] using ih

/-- A raw lookup hit on an own key. -/
lemma jsRouteLookup_of_lookup (m : RoutesMap) (p : String) (v : RVal)
    (h : m.lookup p = some v) : jsRouteLookup m p = some v := by
  unfold jsRouteLookup
  rw [h]

/-! ## C1 — dispatch resolution -/

/-- **C1.** `getRoute` resolution: a top-level own key equal to the whole
path is returned directly, with no splitting; otherwise a path containing
`'.'` is split on `'.'` and walked strictly left to right by
`walkStep`-folding; the first missing segment makes the rest of the walk
(and hence resolution) return not-found, with no backtracking; and
resolution is a pure function of the tree and the path, so its result does
not depend on prior calls. -/
theorem getRoute_resolution_spec :
    (∀ (m : RoutesMap) (p : String) (v : RVal),
        m.lookup p = some v → sRPC_API.getRoute m p = some (.val v))
  ∧ (∀ (m : RoutesMap) (p : String),
        m.lookup p = none → includesDot p = true →
        sRPC_API.getRoute m p = (splitOnDot p).foldl walkStep (some (.routesObj m)))
  ∧ (∀ (parts : List String), parts.foldl walkStep none = none)
  ∧ (∀ (m : RoutesMap) (p : String) (r₁ r₂ : Option Cur),
        sRPC_API.getRoute m p = r₁ → sRPC_API.getRoute m p = r₂ → r₁ = r₂) := by
  refine ⟨?_, ?_, walkStep_none_absorb, ?_⟩
  · intro m p v h
    unfold sRPC_API.getRoute
    rw [jsRouteLookup_of_lookup m p v h]
  · intro m p hlk hdot
    unfold sRPC_API.getRoute
    rw [jsRouteLookup_eq_lookup_of_dot m p hdot, hlk, hdot]
    rfl
  · intro m p r₁ r₂ h₁ h₂
    rw [← h₁, ← h₂]

/-- Closed instantiation of `getRoute_resolution_spec` on the demo router:
the non-nested hit, the nested walk, and the abort after a missing
segment. -/
theorem getRoute_resolution_spec_witness :
    sRPC_API.getRoute demoRoutes "sayHello" = some (.val (.proc sayHelloProc))
  ∧ sRPC_API.getRoute demoRoutes "users.admin.createUser"
      = (["users", "admin", "createUser"].foldl walkStep (some (.routesObj demoRoutes)))
  ∧ (["missing", "leftover"].foldl walkStep none = none) := by
  refine ⟨?_, ?_, ?_⟩
  · exact getRoute_resolution_spec.1 demoRoutes "sayHello" (.proc sayHelloProc) rfl
  · have h := getRoute_resolution_spec.2.1 demoRoutes "users.admin.createUser" rfl rfl
    exact h.trans rfl
  · exact getRoute_resolution_spec.2.2.1 ["missing", "leftover"]

/-! ## C10 — prototype-chain lookup in route resolution -/

/-- **C10.** Route lookup is unguarded property access over the prototype
chain: a single-segment path naming an `Object.prototype` member that the
router's mapping does not register resolves to the inherited function
rather than not-found; `call` on such a path invokes that inherited
function with the context prepended to the args and returns its result
(never throwing the `NOT_FOUND` typed error); and the same prototype-chain
lookup (`key in current` on a plain mapping, unguarded access through a
nested router's mapping) applies at each step of the dotted-segment walk. -/
theorem getRoute_prototype_chain_spec :
    (∀ (m : RoutesMap) (k : String), k ∈ objectProtoKeys → m.lookup k = none →
        sRPC_API.getRoute m k = some (.val (.protoFn k)))
  ∧ (∀ (protoImpl : String → List JVal → Except Thrown JVal)
        (m : RoutesMap) (k : String) (ctx : JVal) (args : List JVal),
        k ∈ objectProtoKeys → m.lookup k = none →
        sRPC_API.call protoImpl m k ctx args = protoImpl k (ctx :: args))
  ∧ (∀ (m : RoutesMap) (k : String), k ∈ objectProtoKeys → m.lookup k = none →
        walkStep (some (.routesObj m)) k = some (.val (.protoFn k)))
  ∧ (∀ (sub : RoutesMap) (k : String), k ∈ objectProtoKeys → sub.lookup k = none →
        walkStep (some (.val (.router sub))) k = some (.val (.protoFn k))) := by
  have hjs : ∀ (m : RoutesMap) (k : String), k ∈ objectProtoKeys →
      m.lookup k = none → jsRouteLookup m k = some (.protoFn k) := by
    intro m k hk hlk
    unfold jsRouteLookup
    rw [hlk]
    simp [hk]
  refine ⟨?_, ?_, ?_, ?_⟩
  · intro m k hk hlk
    unfold sRPC_API.getRoute
    rw [hjs m k hk hlk]
  · intro protoImpl m k ctx args hk hlk
    unfold sRPC_API.call sRPC_API.getRoute
    rw [hjs m k hk hlk]
  · intro m k hk hlk
    simp [walkStep, hlk, hk, hjs m k hk hlk]
  · intro sub k hk hlk
    simp [walkStep, hjs sub k hk hlk]

/-! ## C2 — batch identity and isolation -/

/-- The batch execution phase settles every item by its own call alone. -/
lemma executeBatch_eq_map (protoImpl : String → List JVal → Except Thrown JVal)
    (m : RoutesMap) (ctx : JVal) (items : List BatchRequestItem) :
    executeBatch protoImpl m ctx items
      = items.map (fun it =>
          settledToResponseItem it.id (sRPC_API.call protoImpl m it.path ctx it.args)) := by
  induction items with
  | nil => rfl
  | cons it rest ih =>
    simp only [executeBatch, List.map_cons, List.zip_cons_cons] at *
    simpa using ih

/-- **C2.** Batch identity and isolation, for every batch that reaches the
execution phase: the response envelope pairs each request with the result
of calling its own path with its own args (so one item's entry is a
function of that item alone, independent of the other items' outcomes);
response ids are the request ids in order, so with distinct request ids
every id appears exactly once; a fulfilled call yields `{id, ok: true,
data}`; a rejected call yields `{id, ok: false, error}` whose payload keeps
a typed error's message and code and normalizes any other failure to
`INTERNAL_SERVER_ERROR` — carrying only the brand tag, message and code
(the payload has no stack field). -/
theorem handleBatchRequest_identity :
    ∀ (protoImpl : String → List JVal → Except Thrown JVal) (m : RoutesMap)
      (ctx : JVal) (items : List BatchRequestItem),
      (executeBatch protoImpl m ctx items
        = items.map (fun it =>
            settledToResponseItem it.id (sRPC_API.call protoImpl m it.path ctx it.args)))
    ∧ ((executeBatch protoImpl m ctx items).map (fun r => r.id)
        = items.map (fun it => it.id))
    ∧ ((items.map (fun it => it.id)).Nodup →
        ∀ i ∈ items.map (fun it => it.id),
          ((executeBatch protoImpl m ctx items).map (fun r => r.id)).count i = 1)
    ∧ (∀ (id : Int) (v : JVal),
        settledToResponseItem id (.ok v) = ⟨id, true, some v, none⟩)
    ∧ (∀ (id : Int) (msg : String) (code : ErrorCode),
        settledToResponseItem id (.error (.srpcError msg code))
          = ⟨id, false, none, some ⟨"SRPCError", msg, code⟩⟩)
    ∧ (∀ (id : Int) (e : Thrown), (∀ msg code, e ≠ .srpcError msg code) →
        settledToResponseItem id (.error e)
          = ⟨id, false, none, some ⟨"SRPCError", e.fallbackMessage, .INTERNAL_SERVER_ERROR⟩⟩) := by
  intro protoImpl m ctx items
  have hmap := executeBatch_eq_map protoImpl m ctx items
  have hids : (executeBatch protoImpl m ctx items).map (fun r => r.id)
      = items.map (fun it => it.id) := by
    rw [hmap, List.map_map]
    apply List.map_congr_left
    intro it _
    simp only [Function.comp]
    cases hc : sRPC_API.call protoImpl m it.path ctx it.args <;>
      simp [settledToResponseItem, hc]
  refine ⟨hmap, hids, ?_, fun _ _ => rfl, fun _ _ _ => rfl, ?_⟩
  · intro hnd i hi
    rw [hids]
    exact List.count_eq_one_of_mem hnd hi
  · intro id e he
    cases e with
    | srpcError msg code => exact absurd rfl (he msg code)
    | jsError msg => rfl
    | rawValue v => rfl

/-! ## C6 — batch envelope validation -/

/-- An accepted item passed every shape check. -/
lemma validateItem_ok_wellFormed (v : JVal) (it : BatchRequestItem)
    (h : validateItem v = .ok it) : itemWellFormed v := by
  unfold validateItem at h
  by_cases hg : (jsFalsy v || !(jsTypeof v == "object")) = true
  · rw [if_pos hg] at h
    exact absurd h (by simp)
  · rw [if_neg hg] at h
    have hfal : jsFalsy v = false := by
      cases hf : jsFalsy v
      · rfl
      · exact absurd (by simp [hf]) hg
    have htyp : jsTypeof v = "object" := by
      by_contra hne
      exact hg (by simp [hne])
    cases hid : jsGetOwn v "id" with
    | none => rw [hid] at h; exact absurd h (by simp)
    | some vid =>
      cases hpath : jsGetOwn v "path" with
      | none => rw [hid, hpath] at h; exact absurd h (by simp)
      | some vpath =>
        rw [hid, hpath] at h
        match vid, vpath, h with
        | .num i, .str p, h =>
          cases hargs : jsGetOwn v "args" with
          | none => rw [hargs] at h; exact absurd h (by simp)
          | some vargs =>
            rw [hargs] at h
            match vargs, h with
            | .arr xs, h =>
              exact ⟨hfal, htyp, ⟨i, hid⟩, ⟨p, hpath⟩, ⟨xs, hargs⟩⟩

/-- Every rejection of the item validator is a `BAD_REQUEST` typed error. -/
lemma validateItem_error_code (v : JVal) (e : Thrown)
    (h : validateItem v = .error e) :
    ∃ msg, e = .srpcError msg .BAD_REQUEST := by
  unfold validateItem at h
  by_cases hg : (jsFalsy v || !(jsTypeof v == "object")) = true
  · rw [if_pos hg] at h
    exact ⟨_, (by simpa using h.symm)⟩
  · rw [if_neg hg] at h
    cases hid : jsGetOwn v "id" with
    | none =>
      rw [hid] at h
      exact ⟨_, (by simpa using h.symm)⟩
    | some vid =>
      cases hpath : jsGetOwn v "path" with
      | none =>
        rw [hid, hpath] at h
        exact ⟨_, (by simpa using h.symm)⟩
      | some vpath =>
        rw [hid, hpath] at h
        match vid, vpath, h with
        | .num i, .str p, h =>
          cases hargs : jsGetOwn v "args" with
          | none =>
            rw [hargs] at h
            exact ⟨_, (by simpa using h.symm)⟩
          | some vargs =>
            rw [hargs] at h
            match vargs, h with
            | .null, h => exact ⟨_, (by simpa using h.symm)⟩
            | .bool b, h => exact ⟨_, (by simpa using h.symm)⟩
            | .num n, h => exact ⟨_, (by simpa using h.symm)⟩
            | .str s, h => exact ⟨_, (by simpa using h.symm)⟩
            | .arr xs, h => exact absurd h (by simp)
            | .obj fs, h => exact ⟨_, (by simpa using h.symm)⟩
        | .num i, .null, h => exact ⟨_, (by simpa using h.symm)⟩
        | .num i, .bool b, h => exact ⟨_, (by simpa using h.symm)⟩
        | .num i, .num n, h => exact ⟨_, (by simpa using h.symm)⟩
        | .num i, .arr xs, h => exact ⟨_, (by simpa using h.symm)⟩
        | .num i, .obj fs, h => exact ⟨_, (by simpa using h.symm)⟩
        | .null, p2, h => exact ⟨_, (by simpa using h.symm)⟩
        | .bool b, p2, h => exact ⟨_, (by simpa using h.symm)⟩
        | .str s, p2, h => exact ⟨_, (by simpa using h.symm)⟩
        | .arr xs, p2, h => exact ⟨_, (by simpa using h.symm)⟩
        | .obj fs, p2, h => exact ⟨_, (by simpa using h.symm)⟩

/-- An accepted item list passed every per-item check. -/
lemma validateItems_ok_all (vs : List JVal) (its : List BatchRequestItem)
    (h : validateItems vs = .ok its) : ∀ v ∈ vs, itemWellFormed v := by
  induction vs generalizing its with
  | nil => intro v hv; cases hv
  | cons v rest ih =>
    intro w hw
    unfold validateItems at h
    cases hv : validateItem v with
    | error e => rw [hv] at h; exact absurd h (by simp)
    | ok item =>
      rw [hv] at h
      cases hrest : validateItems rest with
      | error e => rw [hrest] at h; exact absurd h (by simp)
      | ok items =>
        cases hw with
        | head => exact validateItem_ok_wellFormed v item hv
        | tail _ hmem => exact ih items hrest w hmem

/-- Every rejection of the item loop is a `BAD_REQUEST` typed error. -/
lemma validateItems_error_code (vs : List JVal) (e : Thrown)
    (h : validateItems vs = .error e) :
    ∃ msg, e = .srpcError msg .BAD_REQUEST := by
  induction vs generalizing e with
  | nil => exact absurd h (by simp [validateItems])
  | cons v rest ih =>
    unfold validateItems at h
    cases hv : validateItem v with
    | error e1 =>
      rw [hv] at h
      cases h
      exact validateItem_error_code v _ hv
    | ok item =>
      rw [hv] at h
      cases hrest : validateItems rest with
      | error e1 =>
        rw [hrest] at h
        cases h
        exact ih _ hrest
      | ok items =>
        rw [hrest] at h
        exact absurd h (by simp)

/-- A list containing an ill-formed item is rejected with `BAD_REQUEST`. -/
lemma validateItems_bad (vs : List JVal) (v : JVal) (hv : v ∈ vs)
    (hwf : ¬ itemWellFormed v) :
    ∃ msg, validateItems vs = .error (.srpcError msg .BAD_REQUEST) := by
  cases h : validateItems vs with
  | ok its => exact absurd (validateItems_ok_all vs its h v hv) hwf
  | error e =>
    obtain ⟨msg, hmsg⟩ := validateItems_error_code vs e h
    exact ⟨msg, by rw [hmsg]⟩

/-- Every rejected envelope shape makes `validateBatch` throw a
`BAD_REQUEST` typed error. -/
lemma validateBatch_bad (parsed : JVal) (maxBatchSize : Nat)
    (h : envelopeBad parsed maxBatchSize) :
    ∃ msg, validateBatch parsed maxBatchSize
      = .error (.srpcError msg .BAD_REQUEST) := by
  unfold validateBatch
  by_cases hg : (jsFalsy parsed || !(jsTypeof parsed == "object")
      || !(jsHasProp parsed "requests")) = true
  · rw [if_pos hg]
    exact ⟨_, rfl⟩
  · rw [if_neg hg]
    have hfal : jsFalsy parsed = false := by
      cases hf : jsFalsy parsed
      · rfl
      · exact absurd (by simp [hf]) hg
    have htyp : jsTypeof parsed = "object" := by
      by_contra hne
      exact hg (by simp [hne])
    have hreqIn : jsHasProp parsed "requests" = true := by
      cases hr : jsHasProp parsed "requests"
      · exact absurd (by simp [hr]) hg
      · rfl
    rcases h with h1 | h2 | h3 | h4 | h5
    · exact absurd ⟨hfal, htyp, hreqIn⟩ h1
    · cases hreq : jsGetOwn parsed "requests" with
      | none => exact ⟨_, rfl⟩
      | some v =>
        cases v with
        | null => exact ⟨_, rfl⟩
        | bool b => exact ⟨_, rfl⟩
        | num n => exact ⟨_, rfl⟩
        | str sv => exact ⟨_, rfl⟩
        | obj fs => exact ⟨_, rfl⟩
        | arr xs => exact absurd hreq (h2 xs)
    · rw [h3]
      exact ⟨_, rfl⟩
    · obtain ⟨xs, hreq, hlen⟩ := h4
      rw [hreq]
      have h0 : ¬((xs.length == 0) = true) := by
        simp only [beq_iff_eq]
        omega
      refine ⟨s!"Batch size {xs.length} exceeds maximum {maxBatchSize}", ?_⟩
      show validateRequestsList xs maxBatchSize = _
      unfold validateRequestsList
      rw [if_neg h0, if_pos hlen]
    · obtain ⟨xs, v, hreq, hv, hwf⟩ := h5
      rw [hreq]
      have h0 : ¬((xs.length == 0) = true) := by
        simp only [beq_iff_eq]
        intro hlen
        rw [List.length_eq_zero] at hlen
        subst hlen
        cases hv
      obtain ⟨msg, hmsg⟩ := validateItems_bad xs v hv hwf
      by_cases hsz : maxBatchSize < xs.length
      · refine ⟨s!"Batch size {xs.length} exceeds maximum {maxBatchSize}", ?_⟩
        show validateRequestsList xs maxBatchSize = _
        unfold validateRequestsList
        rw [if_neg h0, if_pos hsz]
      · refine ⟨msg, ?_⟩
        show validateRequestsList xs maxBatchSize = _
        unfold validateRequestsList
        rw [if_neg h0, if_neg hsz]
        exact hmsg

/-- **C6.** For every decoded envelope in a rejected shape — not an object
with a `requests` member, `requests` not a list, an empty list, a list
longer than the configured maximum batch size, or an item without a
numeric `id`, a string `path` and a list `args` — the batch handler
rejects the whole envelope with a `BAD_REQUEST` typed error, and it does
so before executing any item: the outcome does not depend on the router,
the host functions or the context. -/
theorem handleBatchRequest_validation_spec :
    ∀ (parsed : JVal) (maxBatchSize : Nat), envelopeBad parsed maxBatchSize →
      (∀ (protoImpl : String → List JVal → Except Thrown JVal)
         (m : RoutesMap) (ctx : JVal), ∃ msg,
          handleBatchRequest protoImpl m parsed ctx maxBatchSize
            = .error (.srpcError msg .BAD_REQUEST))
    ∧ (∀ (protoImpl₁ protoImpl₂ : String → List JVal → Except Thrown JVal)
         (m₁ m₂ : RoutesMap) (ctx₁ ctx₂ : JVal),
          handleBatchRequest protoImpl₁ m₁ parsed ctx₁ maxBatchSize
            = handleBatchRequest protoImpl₂ m₂ parsed ctx₂ maxBatchSize) := by
  intro parsed maxBatchSize h
  obtain ⟨msg, hval⟩ := validateBatch_bad parsed maxBatchSize h
  constructor
  · intro protoImpl m ctx
    refine ⟨msg, ?_⟩
    unfold handleBatchRequest
    rw [hval]
  · intro protoImpl₁ protoImpl₂ m₁ m₂ ctx₁ ctx₂
    unfold handleBatchRequest
    rw [hval]

/-- Closed instantiation of `handleBatchRequest_validation_spec`: an
envelope whose `requests` member is a string is rejected with
`BAD_REQUEST` regardless of the router. -/
theorem handleBatchRequest_validation_spec_witness :
    ∃ msg, handleBatchRequest demoProtoImpl demoRoutes
        (.obj [("requests", .str "nope")]) .null 100
      = .error (.srpcError msg .BAD_REQUEST) := by
  have hbad : envelopeBad (.obj [("requests", .str "nope")]) 100 := by
    refine Or.inr (Or.inl ?_)
    intro xs hx
    simp [jsGetOwn] at hx
  exact (handleBatchRequest_validation_spec (.obj [("requests", .str "nope")]) 100 hbad).1
    demoProtoImpl demoRoutes .null

/-! ## C8 — single-call client error handling -/

/-- **C8 counterexample.** A non-success response whose decoded body is the
primitive string `"oops"` does not reject with a typed error at all: the
`"__BRAND__" in data` probe throws a host `TypeError`, which propagates
instead of the claimed `GENERIC_ERROR` typed error. -/
theorem createSRPCClient_primitive_body_counterexample :
    createSRPCClientHandle false "Internal Server Error" (.str "oops")
      = .hostError "Cannot use in operator to search in a primitive value"
  ∧ createSRPCClientHandle false "Internal Server Error" (.str "oops")
      ≠ .srpcThrow "Internal Server Error" (some (.str "GENERIC_ERROR")) :=
  ⟨rfl, fun h => ClientResult.noConfusion h⟩

/-- **C8 (amended).** On a non-success response: a decoded body that is an
object recognized by the `__BRAND__` tag rejects with a typed error
preserving the body's `message` and carrying the body's `code` verbatim; a
decoded object or array body not recognized by the tag rejects with a
`GENERIC_ERROR` typed error whose message is the transport's status text
(or `"Unknown error"` when that is empty); a primitive decoded body
(`null`, boolean, number or string) instead makes the `in` probe throw a
host `TypeError`, so no typed error is produced there. -/
theorem createSRPCClient_error_spec :
    (∀ (statusText : String) (fields : List (String × JVal))
       (message : String) (code : JVal),
        fields.lookup "__BRAND__" = some (.str "SRPCError") →
        fields.lookup "message" = some (.str message) →
        fields.lookup "code" = some code →
        createSRPCClientHandle false statusText (.obj fields)
          = .srpcThrow message (some code))
  ∧ (∀ (statusText : String) (fields : List (String × JVal)),
        fields.lookup "__BRAND__" ≠ some (.str "SRPCError") →
        createSRPCClientHandle false statusText (.obj fields)
          = .srpcThrow (if statusText == "" then "Unknown error" else statusText)
              (some (.str "GENERIC_ERROR")))
  ∧ (∀ (statusText : String) (elems : List JVal),
        createSRPCClientHandle false statusText (.arr elems)
          = .srpcThrow (if statusText == "" then "Unknown error" else statusText)
              (some (.str "GENERIC_ERROR")))
  ∧ (∀ (statusText : String) (data : JVal) (msg : String),
        jsInOp data "__BRAND__" = .error msg →
        createSRPCClientHandle false statusText data = .hostError msg) := by
  refine ⟨?_, ?_, ?_, ?_⟩
  · intro statusText fields message code h1 h2 h3
    simp [createSRPCClientHandle, jsInOp, jsHasProp, jsGetOwn, h1, h2, h3,
      errorCtorMessage, jsToString]
  · intro statusText fields h1
    cases hb : fields.lookup "__BRAND__" with
    | none => simp [createSRPCClientHandle, jsInOp, jsHasProp, jsGetOwn, hb]
    | some v =>
      cases v with
      | str s =>
        have hs : (s == "SRPCError") = false := by
          cases hcmp : s == "SRPCError"
          · rfl
          · exact absurd (by rw [hb, beq_iff_eq.mp hcmp]) h1
        simp [createSRPCClientHandle, jsInOp, jsHasProp, jsGetOwn, hb, hs]
      | null => simp [createSRPCClientHandle, jsInOp, jsHasProp, jsGetOwn, hb]
      | bool b => simp [createSRPCClientHandle, jsInOp, jsHasProp, jsGetOwn, hb]
      | num n => simp [createSRPCClientHandle, jsInOp, jsHasProp, jsGetOwn, hb]
      | arr elems => simp [createSRPCClientHandle, jsInOp, jsHasProp, jsGetOwn, hb]
      | obj fs => simp [createSRPCClientHandle, jsInOp, jsHasProp, jsGetOwn, hb]
  · intro statusText elems
    have hbr : arrayProtoKeys.contains "__BRAND__" = false := by decide
    simp [createSRPCClientHandle, jsInOp, jsHasProp, jsGetOwn, hbr]
  · intro statusText data msg h
    cases data <;> simp_all [createSRPCClientHandle, jsInOp]

/-- Closed instantiation of `createSRPCClient_error_spec`: a recognized
error body preserves message and code, and an unrecognized object body
falls back to the status text with `GENERIC_ERROR`. -/
theorem createSRPCClient_error_spec_witness :
    createSRPCClientHandle false "Not Found"
        (.obj [("__BRAND__", .str "SRPCError"), ("message", .str "nope"),
               ("code", .str "NOT_FOUND")])
      = .srpcThrow "nope" (some (.str "NOT_FOUND"))
  ∧ createSRPCClientHandle false "Bad Gateway" (.obj [("detail", .str "x")])
      = .srpcThrow "Bad Gateway" (some (.str "GENERIC_ERROR")) := by
  constructor
  · exact createSRPCClient_error_spec.1 "Not Found"
      [("__BRAND__", .str "SRPCError"), ("message", .str "nope"), ("code", .str "NOT_FOUND")]
      "nope" (.str "NOT_FOUND") rfl rfl rfl
  · exact (createSRPCClient_error_spec.2.1 "Bad Gateway" [("detail", .str "x")]
      (fun h => Option.noConfusion h)).trans (by rfl)

/-! ## C4 — batching link response fan-out -/

/-- **C4 counterexample.** A transport failure thrown as a plain (non-typed)
error rejects the snapshot with code `INTERNAL_SERVER_ERROR`, not the
claimed generic failure kind (`GENERIC_ERROR`). -/
theorem httpBatchLink_thrown_code_counterexample :
    flushSettle [⟨1, "sayHello", [.str "A"]⟩] (.thrown (.jsError "boom"))
      = [.rejected "boom" .INTERNAL_SERVER_ERROR]
  ∧ ErrorCode.INTERNAL_SERVER_ERROR ≠ ErrorCode.GENERIC_ERROR :=
  ⟨rfl, by decide⟩

/-- **C4 (amended).** When the batching link flushes a snapshot: a
non-success status rejects every pending request in the snapshot with one
shared `GENERIC_ERROR` typed error built from the status text (defaulting
to `"Batch request failed"`); a thrown failure rejects them all with one
shared typed error — the failure itself when it is typed, otherwise coded
`INTERNAL_SERVER_ERROR` (not `GENERIC_ERROR`); a decoded envelope settles
each request by id-lookup — a present item with `ok` resolves with `data`,
a present item without `ok` carrying an error rejects with the carried
message and code, and an absent id rejects with the missing-response
`GENERIC_ERROR` — and every pending request is settled exactly once (one
settlement per snapshot entry). -/
theorem httpBatchLink_flush_settle_spec :
    (∀ (batch : List PendingRequest) (statusText : String), statusText ≠ "" →
        flushSettle batch (.httpError statusText)
          = batch.map (fun _ => .rejected statusText .GENERIC_ERROR))
  ∧ (∀ (batch : List PendingRequest),
        flushSettle batch (.httpError "")
          = batch.map (fun _ => .rejected "Batch request failed" .GENERIC_ERROR))
  ∧ (∀ (batch : List PendingRequest) (message : String) (code : ErrorCode),
        flushSettle batch (.thrown (.srpcError message code))
          = batch.map (fun _ => .rejected message code))
  ∧ (∀ (batch : List PendingRequest) (e : Thrown),
        (∀ msg c, e ≠ .srpcError msg c) →
        flushSettle batch (.thrown e)
          = batch.map (fun _ => .rejected e.fallbackMessage .INTERNAL_SERVER_ERROR))
  ∧ (∀ (batch : List PendingRequest) (responses : List WireResponseItem),
        flushSettle batch (.decoded responses)
          = batch.map (settleFromResponses responses))
  ∧ (∀ (responses : List WireResponseItem) (req : PendingRequest)
       (r : WireResponseItem), responseMapGet responses req.id = some r →
        r.ok = true → settleFromResponses responses req = .resolved r.data)
  ∧ (∀ (responses : List WireResponseItem) (req : PendingRequest)
       (r : WireResponseItem) (e : BatchErrorPayload),
        responseMapGet responses req.id = some r → r.ok = false →
        r.error = some e →
        settleFromResponses responses req = .rejected e.message e.code)
  ∧ (∀ (responses : List WireResponseItem) (req : PendingRequest),
        responseMapGet responses req.id = none →
        settleFromResponses responses req
          = .rejected "Missing response for request" .GENERIC_ERROR)
  ∧ (∀ (batch : List PendingRequest) (outcome : TransportOutcome),
        (flushSettle batch outcome).length = batch.length) := by
  refine ⟨?_, ?_, ?_, ?_, ?_, ?_, ?_, ?_, ?_⟩
  · intro batch statusText h
    have hs : (statusText == "") = false := by
      cases hcmp : statusText == ""
      · rfl
      · exact absurd (beq_iff_eq.mp hcmp) h
    simp [flushSettle, hs]
  · intro batch
    rfl
  · intro batch message code
    rfl
  · intro batch e he
    cases e with
    | srpcError msg c => exact absurd rfl (he msg c)
    | jsError msg => rfl
    | rawValue v => rfl
  · intro batch responses
    rfl
  · intro responses req r hr hok
    simp [settleFromResponses, hr, hok]
  · intro responses req r e hr hok herr
    simp [settleFromResponses, hr, hok, herr]
  · intro responses req hr
    simp [settleFromResponses, hr]
  · intro batch outcome
    cases outcome with
    | httpError statusText => simp [flushSettle]
    | decoded responses => simp [flushSettle]
    | thrown e => cases e <;> simp [flushSettle]

/-- Closed instantiation of `httpBatchLink_flush_settle_spec`: a two-entry
snapshot under a non-success status rejects both with the shared error, and
under a decoded envelope one entry resolves while the missing id rejects. -/
theorem httpBatchLink_flush_settle_spec_witness :
    flushSettle [⟨1, "a", []⟩, ⟨2, "b", []⟩] (.httpError "Bad Gateway")
      = [.rejected "Bad Gateway" .GENERIC_ERROR, .rejected "Bad Gateway" .GENERIC_ERROR]
  ∧ settleFromResponses [⟨2, true, some (.str "ok2"), none⟩] ⟨2, "b", []⟩
      = .resolved (some (.str "ok2"))
  ∧ settleFromResponses [⟨2, true, some (.str "ok2"), none⟩] ⟨1, "a", []⟩
      = .rejected "Missing response for request" .GENERIC_ERROR := by
  refine ⟨?_, ?_, ?_⟩
  · exact (httpBatchLink_flush_settle_spec.1 [⟨1, "a", []⟩, ⟨2, "b", []⟩]
      "Bad Gateway" (by decide)).trans rfl
  · exact httpBatchLink_flush_settle_spec.2.2.2.2.2.1
      [⟨2, true, some (.str "ok2"), none⟩] ⟨2, "b", []⟩
      ⟨2, true, some (.str "ok2"), none⟩ rfl rfl
  · exact httpBatchLink_flush_settle_spec.2.2.2.2.2.2.2.1
      [⟨2, true, some (.str "ok2"), none⟩] ⟨1, "a", []⟩ rfl

/-! ## C5 — batching link state machine -/

/-- An emitting step leaves an empty buffer and no armed timer. -/
lemma linkStep_emit_clears (maxBatchSize batchWindowMs : Nat) (s : LinkState)
    (e : LinkEvent) (b : List PendingRequest)
    (h : (linkStep maxBatchSize batchWindowMs s e).2 = some b) :
    (linkStep maxBatchSize batchWindowMs s e).1.pendingRequests = []
    ∧ (linkStep maxBatchSize batchWindowMs s e).1.timer = none := by
  cases e with
  | timerFire => exact ⟨rfl, rfl⟩
  | capture path args =>
    show (captureTransition maxBatchSize batchWindowMs s path args).1.pendingRequests = []
      ∧ (captureTransition maxBatchSize batchWindowMs s path args).1.timer = none
    have h' : (captureTransition maxBatchSize batchWindowMs s path args).2 = some b := h
    unfold captureTransition at h' ⊢
    by_cases hMle : maxBatchSize ≤ (s.pendingRequests
        ++ [(⟨s.requestIdCounter + 1, String.intercalate "." path, args⟩ : PendingRequest)]).length
    · rw [if_pos hMle]
      exact ⟨rfl, rfl⟩
    · rw [if_neg hMle] at h'
      by_cases ht : s.timer.isNone
      · rw [if_pos ht] at h'
        exact absurd h' (by simp)
      · rw [if_neg ht] at h'
        exact absurd h' (by simp)

/-- A step from a below-maximum buffer emits only batches within the
maximum and keeps the buffer below the maximum. -/
lemma linkStep_bound (maxBatchSize batchWindowMs : Nat) (hM : 1 ≤ maxBatchSize)
    (s : LinkState) (e : LinkEvent)
    (hs : s.pendingRequests.length < maxBatchSize) :
    (∀ b, (linkStep maxBatchSize batchWindowMs s e).2 = some b →
        b.length ≤ maxBatchSize)
    ∧ (linkStep maxBatchSize batchWindowMs s e).1.pendingRequests.length
        < maxBatchSize := by
  cases e with
  | timerFire =>
    refine ⟨?_, ?_⟩
    · intro b hb
      have hb' : (flushTransition s).2 = some b := hb
      unfold flushTransition at hb'
      by_cases hemp : s.pendingRequests.isEmpty
      · rw [if_pos hemp] at hb'
        exact absurd hb' (by simp)
      · rw [if_neg hemp] at hb'
        have hbs : s.pendingRequests = b := by simpa using hb'
        rw [← hbs]
        omega
    · show ([] : List PendingRequest).length < maxBatchSize
      simp only [List.length_nil]
      omega
  | capture path args =>
    have hlen : (s.pendingRequests
        ++ [(⟨s.requestIdCounter + 1, String.intercalate "." path, args⟩ : PendingRequest)]).length
        = s.pendingRequests.length + 1 := by simp
    show (∀ b, (captureTransition maxBatchSize batchWindowMs s path args).2 = some b →
        b.length ≤ maxBatchSize)
      ∧ (captureTransition maxBatchSize batchWindowMs s path args).1.pendingRequests.length
        < maxBatchSize
    unfold captureTransition
    by_cases hMle : maxBatchSize ≤ (s.pendingRequests
        ++ [(⟨s.requestIdCounter + 1, String.intercalate "." path, args⟩ : PendingRequest)]).length
    · rw [if_pos hMle]
      unfold flushTransition
      rw [if_neg (by simp)]
      refine ⟨?_, ?_⟩
      · intro b hb
        have hbs : s.pendingRequests
            ++ [(⟨s.requestIdCounter + 1, String.intercalate "." path, args⟩ : PendingRequest)]
            = b := by simpa using hb
        rw [← hbs, hlen]
        omega
      · show ([] : List PendingRequest).length < maxBatchSize
        simp only [List.length_nil]
        omega
    · rw [if_neg hMle]
      rw [hlen] at hMle
      by_cases ht : s.timer.isNone
      · rw [if_pos ht]
        refine ⟨fun b hb => absurd hb (by simp), ?_⟩
        rw [hlen]
        omega
      · rw [if_neg ht]
        refine ⟨fun b hb => absurd hb (by simp), ?_⟩
        rw [hlen]
        omega

/-- Along any run started below the maximum, every transmitted batch stays
within the maximum. -/
lemma linkRun_batches_bounded (maxBatchSize batchWindowMs : Nat)
    (hM : 1 ≤ maxBatchSize) :
    ∀ (events : List LinkEvent) (s : LinkState),
      s.pendingRequests.length < maxBatchSize →
      ∀ b ∈ (linkRun maxBatchSize batchWindowMs s events).2,
        b.length ≤ maxBatchSize := by
  intro events
  induction events with
  | nil => intro s hs b hb; cases hb
  | cons e rest ih =>
    intro s hs b hb
    obtain ⟨hemit, hnext⟩ := linkStep_bound maxBatchSize batchWindowMs hM s e hs
    unfold linkRun at hb
    rcases List.mem_append.mp hb with hhead | htail
    · cases hstep : (linkStep maxBatchSize batchWindowMs s e).2 with
      | none => rw [hstep] at hhead; cases hhead
      | some b0 =>
        rw [hstep] at hhead
        have hb0 : b = b0 := by simpa using hhead
        subst hb0
        exact hemit b hstep
    · exact ih (linkStep maxBatchSize batchWindowMs s e).1 hnext b htail

/-- **C5.** The batching link's capture/flush state machine, with its
source defaults `batchWindowMs = 50` and `maxBatchSize = 10`: the first
call captured while idle arms the flush timer of duration `W` (whenever
two or more calls fit in a batch); a further capture below the maximum
appends to the buffer without re-arming or changing the timer and without
emitting; the capture that reaches `M` entries flushes immediately —
emitting the whole buffer, cancelling the timer and leaving an empty
buffer; every emitting step (size-triggered or timer-triggered) leaves an
empty buffer and no timer, so later captures start a fresh collecting
phase and can never join an already-emitted batch; and along any event
sequence from the initial state no transmitted batch exceeds `M`. -/
theorem httpBatchLink_state_machine_spec :
    (defaultBatchWindowMs = 50 ∧ defaultMaxBatchSize = 10)
  ∧ (∀ (M W : Nat) (c : Int) (path : List String) (args : List JVal), 2 ≤ M →
      captureTransition M W ⟨[], none, c⟩ path args
        = (⟨[⟨c + 1, String.intercalate "." path, args⟩], some W, c + 1⟩, none))
  ∧ (∀ (M W : Nat) (s : LinkState) (path : List String) (args : List JVal)
       (w : Nat), s.timer = some w → s.pendingRequests.length + 1 < M →
      captureTransition M W s path args
        = (⟨s.pendingRequests
              ++ [⟨s.requestIdCounter + 1, String.intercalate "." path, args⟩],
            some w, s.requestIdCounter + 1⟩, none))
  ∧ (∀ (M W : Nat) (s : LinkState) (path : List String) (args : List JVal),
      s.pendingRequests.length + 1 = M →
      captureTransition M W s path args
        = (⟨[], none, s.requestIdCounter + 1⟩,
           some (s.pendingRequests
             ++ [⟨s.requestIdCounter + 1, String.intercalate "." path, args⟩])))
  ∧ (∀ (M W : Nat) (s : LinkState) (e : LinkEvent) (b : List PendingRequest),
      (linkStep M W s e).2 = some b →
      (linkStep M W s e).1.pendingRequests = [] ∧ (linkStep M W s e).1.timer = none)
  ∧ (∀ (M W : Nat) (events : List LinkEvent), 1 ≤ M →
      ∀ b ∈ (linkRun M W initialLinkState events).2, b.length ≤ M) := by
  refine ⟨⟨rfl, rfl⟩, ?_, ?_, ?_, linkStep_emit_clears, ?_⟩
  · intro M W c path args hM
    unfold captureTransition
    rw [if_neg (by simp; omega)]
    simp
  · intro M W s path args w hw hlt
    unfold captureTransition
    rw [if_neg (by simp; omega)]
    rw [if_neg (by simp [hw])]
    rw [hw]
  · intro M W s path args heq
    unfold captureTransition flushTransition
    rw [if_pos (by simp; omega)]
    rw [if_neg (by simp)]
  · intro M W events hM
    exact linkRun_batches_bounded M W hM events initialLinkState (by simpa using hM)

/-- Closed instantiation of `httpBatchLink_state_machine_spec` at the
source defaults: the first capture arms the 50-unit timer; a second
capture appends without re-arming; a run that captures ten calls emits one
full batch of length 10 ≤ 10. -/
theorem httpBatchLink_state_machine_spec_witness :
    captureTransition 10 50 initialLinkState ["users", "getUser"] [.num 1]
      = (⟨[⟨1, "users.getUser", [.num 1]⟩], some 50, 1⟩, none)
  ∧ captureTransition 10 50 ⟨[⟨1, "users.getUser", [.num 1]⟩], some 50, 1⟩
        ["sayHello"] [.str "A"]
      = (⟨[⟨1, "users.getUser", [.num 1]⟩, ⟨2, "sayHello", [.str "A"]⟩],
          some 50, 2⟩, none)
  ∧ captureTransition 1 50 initialLinkState ["sayHello"] [.str "A"]
      = (⟨[], none, 1⟩, some [⟨1, "sayHello", [.str "A"]⟩])
  ∧ ∀ b ∈ (linkRun 10 50 initialLinkState
        [.capture ["a"] [], .timerFire, .capture ["b"] []]).2, b.length ≤ 10 := by
  refine ⟨?_, ?_, ?_, ?_⟩
  · exact (httpBatchLink_state_machine_spec.2.1 10 50 0 ["users", "getUser"]
      [.num 1] (by decide)).trans rfl
  · exact (httpBatchLink_state_machine_spec.2.2.1 10 50
      ⟨[⟨1, "users.getUser", [.num 1]⟩], some 50, 1⟩ ["sayHello"] [.str "A"]
      50 rfl (by decide)).trans rfl
  · exact (httpBatchLink_state_machine_spec.2.2.2.1 1 50 initialLinkState
      ["sayHello"] [.str "A"] rfl).trans rfl
  · exact httpBatchLink_state_machine_spec.2.2.2.2.2 10 50
      [.capture ["a"] [], .timerFire, .capture ["b"] []] (by decide)

/-! ## C3 — call interceptor capture -/

/-- The accumulated chain of property accesses is the access sequence. -/
lemma proxyChain_eq (names : List String) : proxyChain names = names := by
  have haux : ∀ (acc : List String), names.foldl proxyAccess acc = acc ++ names := by
    induction names with
    | nil => intro acc; simp
    | cons n rest ih =>
      intro acc
      simp only [List.foldl_cons, proxyAccess, ih, List.append_assoc,
        List.singleton_append]
  simpa [proxyChain] using haux []

/-- **C3.** For every access depth N ≥ 1 and every argument list, invoking
`proxy.n1.….nN(args)` calls the handler exactly once — the invocation
returns exactly the handler's value at `{path = [n1, …, nN], args}`, and an
instrumented handler that records its invocations records exactly one —
converting an intercepted value to a display string yields the dot-joined
path, its serializable form is the tagged object carrying the path, and
probing `"then"` yields `undefined`. -/
theorem createRecursiveProxy_capture_spec :
    (∀ (R : Type) (handler : CallRecord → R) (names : List String)
       (args : List JVal), names ≠ [] →
        proxyInvoke handler names args = handler ⟨names, args⟩)
  ∧ (∀ (names : List String) (args : List JVal), names ≠ [] →
        proxyInvoke (fun r => [r]) names args = [⟨names, args⟩])
  ∧ (∀ path : List String, proxyToString path = String.intercalate "." path)
  ∧ (∀ path : List String,
        jsGetOwn (proxyToJSON path) "__type" = some (.str "SRPC")
        ∧ jsGetOwn (proxyToJSON path) "path" = some (.arr (path.map .str))
        ∧ jsGetOwn (proxyToJSON path) "pathString"
            = some (.str (String.intercalate "." path)))
  ∧ (∀ path : List String, proxyThenProbe path = none) := by
  refine ⟨?_, ?_, fun _ => rfl, fun _ => ⟨rfl, rfl, rfl⟩, fun _ => rfl⟩
  · intro R handler names args _
    unfold proxyInvoke
    rw [proxyChain_eq]
  · intro names args _
    unfold proxyInvoke
    rw [proxyChain_eq]

/-- Closed instantiation of `createRecursiveProxy_capture_spec` at the
nested path of the repository's own proxy test. -/
theorem createRecursiveProxy_capture_spec_witness :
    proxyInvoke (fun r => r) ["users", "admin", "createUser"] [.num 4]
      = (⟨["users", "admin", "createUser"], [.num 4]⟩ : CallRecord)
  ∧ proxyInvoke (fun r => [r]) ["test", "hello"] []
      = [(⟨["test", "hello"], []⟩ : CallRecord)] :=
  ⟨createRecursiveProxy_capture_spec.1 CallRecord (fun r => r)
      ["users", "admin", "createUser"] [.num 4] (by simp),
   createRecursiveProxy_capture_spec.2.1 ["test", "hello"] [] (by simp)⟩

/-! ## C7 — error status mapping and error response body -/

/-- **C7.** The code-to-status table is exactly the claimed total function,
and a typed dispatch error produces the table status with a body carrying
the brand tag, the message and the code and a nulled stack.  But at the
failing input — a procedure throwing a plain (non-typed) `Error("boom")` —
the adapter serializes the normalizing `SRPCError` instance directly, so
the 500 response's JSON body carries the tag and the code but *no*
`message` field (`Error.message` is a non-enumerable own property), against
the claim that the body carries the error message. -/
theorem srpcFetchApi_error_response_evaluation :
    (StatusCodeMap .BAD_REQUEST = 400 ∧ StatusCodeMap .UNAUTHORIZED = 401
      ∧ StatusCodeMap .FORBIDDEN = 403 ∧ StatusCodeMap .NOT_FOUND = 404
      ∧ StatusCodeMap .UNSUPPORTED_MEDIA_TYPE = 415
      ∧ StatusCodeMap .INTERNAL_SERVER_ERROR = 500
      ∧ StatusCodeMap .NOT_IMPLEMENTED = 501 ∧ StatusCodeMap .GENERIC_ERROR = 500)
  ∧ (∀ (message : String) (code : ErrorCode),
      adapterCatchResponse (.srpcError message code)
        = ⟨StatusCodeMap code, some message, some (srpcErrorSpreadBody message code),
           some "application/json"⟩)
  ∧ (∀ (message : String) (code : ErrorCode),
      jsGetOwn (srpcErrorSpreadBody message code) "__BRAND__" = some (.str "SRPCError")
      ∧ jsGetOwn (srpcErrorSpreadBody message code) "message" = some (.str message)
      ∧ jsGetOwn (srpcErrorSpreadBody message code) "code" = some (.str code.toWire)
      ∧ jsGetOwn (srpcErrorSpreadBody message code) "stack" = some .null)
  ∧ (srpcFetchApiFetch demoProtoImpl demoRoutes "/api" "/_batch" (fun _ => .null)
        ⟨"POST", "/api/explode", .arr []⟩
      = ⟨500, none, some (srpcErrorInstanceJsonBody "boom" .INTERNAL_SERVER_ERROR),
         some "application/json"⟩)
  ∧ jsGetOwn (srpcErrorInstanceJsonBody "boom" .INTERNAL_SERVER_ERROR) "message" = none
  ∧ jsGetOwn (srpcErrorInstanceJsonBody "boom" .INTERNAL_SERVER_ERROR) "code"
      = some (.str "INTERNAL_SERVER_ERROR") := by
  exact ⟨⟨rfl, rfl, rfl, rfl, rfl, rfl, rfl, rfl⟩,
    fun _ _ => rfl, fun _ _ => ⟨rfl, rfl, rfl, rfl⟩, rfl, rfl, rfl⟩

/-! ## C9 — HTTP method checking in the transport adapters -/

/-- **C9 counterexample.** The fetch adapter does not reject non-POST
methods: a GET request for a registered route is dispatched and answered
with status 200, not 405. -/
theorem srpcFetchApi_get_not_rejected_counterexample :
    srpcFetchApiFetch demoProtoImpl demoRoutes "/api" "/_batch" (fun _ => .null)
        ⟨"GET", "/api/sayHello", .arr [.str "World"]⟩
      = ⟨200, none, some (.str "Hello World"), some "application/json"⟩
  ∧ (200 : Nat) ≠ 405 :=
  ⟨rfl, by decide⟩

/-- **C9 (amended).** Only the standalone server rejects non-POST methods:
it answers 405 before context creation and dispatch (the result is the
fixed bodyless 405 response whatever the router, host functions or
context hook); the fetch adapter performs no method check at all — its
result never depends on the request method except through whatever the
external context hook itself makes of the request. -/
theorem method_check_spec :
    (∀ (protoImpl : String → List JVal → Except Thrown JVal) (m : RoutesMap)
       (endpoint batchEndpoint : String) (createContext : FetchRequest → JVal)
       (req : FetchRequest), req.method ≠ "POST" →
        createSrpcServerHandler protoImpl m endpoint batchEndpoint createContext req
          = ⟨405, none, none, none⟩)
  ∧ (∀ (protoImpl : String → List JVal → Except Thrown JVal) (m : RoutesMap)
       (endpoint batchEndpoint : String) (createContext : FetchRequest → JVal)
       (method₁ method₂ pathname : String) (body : JVal),
        createContext ⟨method₁, pathname, body⟩ = createContext ⟨method₂, pathname, body⟩ →
        srpcFetchApiFetch protoImpl m endpoint batchEndpoint createContext
            ⟨method₁, pathname, body⟩
          = srpcFetchApiFetch protoImpl m endpoint batchEndpoint createContext
            ⟨method₂, pathname, body⟩) := by
  constructor
  · intro protoImpl m endpoint batchEndpoint createContext req h
    unfold createSrpcServerHandler
    rw [if_pos (by simp [h])]
  · intro protoImpl m endpoint batchEndpoint createContext method₁ method₂ pathname body hctx
    unfold srpcFetchApiFetch
    simp only [hctx]

/-- Closed instantiation of `method_check_spec`: the standalone server
answers 405 to the GET request the fetch adapter had dispatched. -/
theorem method_check_spec_witness :
    createSrpcServerHandler demoProtoImpl demoRoutes "/api" "/_batch" (fun _ => .null)
        ⟨"GET", "/api/sayHello", .arr [.str "World"]⟩
      = ⟨405, none, none, none⟩
  ∧ srpcFetchApiFetch demoProtoImpl demoRoutes "/api" "/_batch" (fun _ => .null)
        ⟨"GET", "/api/sayHello", .arr [.str "World"]⟩
      = srpcFetchApiFetch demoProtoImpl demoRoutes "/api" "/_batch" (fun _ => .null)
        ⟨"PUT", "/api/sayHello", .arr [.str "World"]⟩ :=
  ⟨method_check_spec.1 demoProtoImpl demoRoutes "/api" "/_batch" (fun _ => .null)
      ⟨"GET", "/api/sayHello", .arr [.str "World"]⟩ (by decide),
   method_check_spec.2 demoProtoImpl demoRoutes "/api" "/_batch" (fun _ => .null)
      "GET" "PUT" "/api/sayHello" (.arr [.str "World"]) rfl⟩

/-- Closed instantiation of `handleBatchRequest_identity` on the demo
batch: ids `[1, 2]` both appear exactly once. -/
theorem handleBatchRequest_identity_witness :
    ((executeBatch demoProtoImpl demoRoutes .null demoBatchItems).map (fun r => r.id)
      = [1, 2])
  ∧ ((executeBatch demoProtoImpl demoRoutes .null demoBatchItems).map (fun r => r.id)).count 1 = 1
  ∧ ((executeBatch demoProtoImpl demoRoutes .null demoBatchItems).map (fun r => r.id)).count 2 = 1 := by
  refine ⟨?_, ?_, ?_⟩
  · exact ((handleBatchRequest_identity demoProtoImpl demoRoutes .null demoBatchItems).2.1).trans rfl
  · exact (handleBatchRequest_identity demoProtoImpl demoRoutes .null demoBatchItems).2.2.1
      (by decide) 1 (by decide)
  · exact (handleBatchRequest_identity demoProtoImpl demoRoutes .null demoBatchItems).2.2.1
      (by decide) 2 (by decide)

/-- Closed instantiation of `getRoute_prototype_chain_spec`: the demo
router does not register `"toString"`, yet resolving and calling it hits
the inherited function. -/
theorem getRoute_prototype_chain_spec_witness :
    sRPC_API.getRoute demoRoutes "toString" = some (.val (.protoFn "toString"))
  ∧ sRPC_API.call demoProtoImpl demoRoutes "toString" .null [.num 1]
      = demoProtoImpl "toString" [.null, .num 1] := by
  constructor
  · exact getRoute_prototype_chain_spec.1 demoRoutes "toString" (by decide) rfl
  · exact getRoute_prototype_chain_spec.2.1 demoProtoImpl demoRoutes "toString"
      .null [.num 1] (by decide) rfl

end Srpc
